import Mathlib

/-!
Shallow embedding of the session orchestrator of the Layers client
(the zustand store `useLayersStore` plus the `Sidebar` layer-selection
handler and the `LayerFiles` search filter).

Conventions of the embedding:
* JavaScript strings are Lean `String`s; all string primitives used by the
  source (`startsWith`, `includes`, `trim`, `toLowerCase`, template
  concatenation) are re-implemented structurally over `List Char` so that
  concrete evaluations reduce in the kernel.  They agree with the JS
  semantics on the inputs that occur.
* The mutable store is a `LayersState` record.  Only the fields that the
  modelled operations read or write are carried; fields the modelled
  operations never touch (available-image list, dockerfile analysis,
  tree-view widget state) are omitted, except `dockerfileContent` and
  `darkMode` which are kept to make frame properties non-trivial.
* Asynchronous actions are modelled as pure functions taking every backend
  response (`Except String α`, since the backend fails with string errors)
  as an explicit argument, and returning the final state together with the
  list of backend calls issued.  Where a claim is about interleaving, the
  action is additionally split into its atomic phases (the state updates
  between `await` suspension points), which the whole-action function
  composes.
* The JS `Set` used for `loadingDirectories` is modelled as a duplicate-free
  insertion-ordered list.
* Task-status progress values (JS floating point 0.0 .. 1.0) are modelled
  as rationals; the source only ever uses 0, 0.1 and 1.0.
-/

/-- Byte-wise prefix test on character lists; `charsLeadWith s p` is true
when `p` is a prefix of `s`, matching JS `String.prototype.startsWith`. -/
def charsLeadWith : List Char → List Char → Bool
  | _, [] => true
  | [], _ :: _ => false
  | a :: as, b :: bs => a == b && charsLeadWith as bs

/-- JS `s.startsWith(p)`. -/
def strStartsWith (s p : String) : Bool :=
  charsLeadWith s.toList p.toList

/-- Substring occurrence on character lists (JS `includes`). -/
def charsContain (hay : List Char) (needle : List Char) : Bool :=
  match hay with
  | [] => needle.isEmpty
  | _ :: rest => charsLeadWith hay needle || charsContain rest needle

/-- JS `s.includes(q)`. -/
def strIncludes (s q : String) : Bool :=
  charsContain s.toList q.toList

/-- JS `s.trim()`: strip whitespace at both ends. -/
def strTrim (s : String) : String :=
  String.mk ((((s.toList.dropWhile Char.isWhitespace).reverse).dropWhile
    Char.isWhitespace).reverse)

/-- JS `s.toLowerCase()` (ASCII case folding, which covers every string the
source compares). -/
def strToLower (s : String) : String :=
  String.mk (s.toList.map Char.toLower)

/-- Value of a non-empty leading run of decimal digits, `none` when the list
does not start with a digit. -/
def leadingDigitsValue (l : List Char) : Option Nat :=
  match l.takeWhile Char.isDigit with
  | [] => none
  | ds => some (ds.foldl (fun acc c => acc * 10 + (c.toNat - 48)) 0)

/-- JS `Number.parseInt(s, 10)`: skip leading whitespace, optional sign,
then a non-empty run of decimal digits (trailing garbage ignored);
`none` models `NaN`. -/
def parseIntBase10 (s : String) : Option Int :=
  match s.toList.dropWhile Char.isWhitespace with
  | '-' :: rest => (leadingDigitsValue rest).map (fun n => -(n : Int))
  | '+' :: rest => (leadingDigitsValue rest).map (fun n => (n : Int))
  | l => (leadingDigitsValue l).map (fun n => (n : Int))

/-- Record `FileItem` from `utils/types.ts`. -/
structure FileItem where
  name : String
  path : String
  is_dir : Bool
  size : Nat
  depth : Option Nat
  needs_loading : Option Bool
  deriving Repr, DecidableEq

/-- Record `DockerLayer` from `utils/types.ts`. -/
structure DockerLayer where
  id : String
  name : String
  command : String
  size : String
  createdAt : String
  files : List FileItem
  deriving Repr, DecidableEq

/-- Record `DockerImageInfo` from `utils/types.ts`. -/
structure DockerImageInfo where
  id : String
  name : String
  created : String
  size : String
  layers : List DockerLayer
  deriving Repr, DecidableEq

/-- Record `TaskStatus` from the store module. -/
structure TaskStatus where
  message : String
  progress : ℚ
  isComplete : Bool
  error : Option String
  deriving Repr, DecidableEq

/-- The four-way diff result returned by the `compare_layers` command. -/
structure ComparisonResult where
  added : List String
  removed : List String
  modified : List String
  unchanged : List String
  deriving Repr, DecidableEq

/-- The session state owned by `useLayersStore` (the fields the modelled
operations touch). -/
structure LayersState where
  dockerImage : Option DockerImageInfo
  selectedLayerId : Option String
  selectedLayerNumber : Option Int
  selectedFile : Option FileItem
  selectedImageId : Option String
  dockerfileContent : String
  isLoading : Bool
  error : Option String
  darkMode : Bool
  taskStatus : Option TaskStatus
  selectedLayerFiles : List FileItem
  isLoadingLayerFiles : Bool
  loadingDirectories : List String
  selectedFileContent : String
  isLoadingFileContent : Bool
  isComparisonMode : Bool
  selectedLayersForComparison : List String
  isComparing : Bool
  comparisonResult : Option ComparisonResult
  deriving Repr, DecidableEq

/-- Initial state of the store. -/
def initialState : LayersState where
  dockerImage := none
  selectedLayerId := none
  selectedLayerNumber := none
  selectedFile := none
  selectedImageId := none
  dockerfileContent := ""
  isLoading := false
  error := none
  darkMode := false
  taskStatus := none
  selectedLayerFiles := []
  isLoadingLayerFiles := false
  loadingDirectories := []
  selectedFileContent := ""
  isLoadingFileContent := false
  isComparisonMode := false
  selectedLayersForComparison := []
  isComparing := false
  comparisonResult := none

/-- One request issued to the Tauri backend (`invoke` call), with its
arguments. -/
inductive BackendCall where
  | retagImage (imageId : String)
  | exportImageLayers
  | exportSingleLayer (layerId : String)
  | getLayerFiles (layerId : String)
  | extractDir (dirPath : String) (layerId : String)
  | readLayerFile (filePath : String)
  | compareLayers (layer1Id : String) (layer2Id : String)
  deriving Repr, DecidableEq

/-- Layer-number extraction at the top of `exportSingleLayer`: ids of the
form `layer_X` yield `parseInt(X, 10)` (with `NaN` mapped back to null). -/
def extractLayerNumber (layerId : String) : Option Int :=
  if strStartsWith layerId "layer_" then
    parseIntBase10 (String.mk (layerId.toList.drop 6))
  else
    none

/-- The state update `selectImageAndProcessLayers` performs first, before
any backend call: clear the layer/file session state, record the selected
image, and seed the task status. -/
def selectImageClear (imageId : String) (s : LayersState) : LayersState :=
  { s with
    selectedLayerId := none
    selectedLayerNumber := none
    selectedLayerFiles := []
    selectedFile := none
    selectedFileContent := ""
    isLoading := true
    error := none
    selectedImageId := some imageId
    taskStatus := some ⟨"Starting image processing...", 0, false, none⟩ }

/-- Action `selectImageAndProcessLayers(imageId)`: guard against an empty id, clear
downstream state, retag the image, then export the layers.  `tagResult` and
`exportResult` are the backend responses to the two `invoke` calls; the
returned list records the backend calls issued, in order.  The task-status
event subscription between the two calls only forwards backend events into
`taskStatus` and is not modelled. -/
def selectImageAndProcessLayers (imageId : String)
    (tagResult : Except String String)
    (exportResult : Except String DockerImageInfo)
    (s : LayersState) : LayersState × List BackendCall :=
  if imageId = "" then (s, [])
  else
    let s1 := selectImageClear imageId s
    let s2 := { s1 with
      taskStatus := some ⟨"Tagging image with \x27layers\x27 tag...", 1/10, false, none⟩ }
    match tagResult with
    | .error e =>
        ({ s2 with
            error := some e
            isLoading := false
            taskStatus := some ⟨"Error tagging image", 0, true, some e⟩ },
         [.retagImage imageId])
    | .ok _ =>
        match exportResult with
        | .ok info =>
            ({ s2 with
                dockerImage := some info
                isLoading := false
                taskStatus := some ⟨"Layer processing completed successfully", 1, true, none⟩ },
             [.retagImage imageId, .exportImageLayers])
        | .error e =>
            ({ s2 with
                error := some e
                isLoading := false
                taskStatus := some ⟨"Error exporting image layers", 0, true, some e⟩ },
             [.retagImage imageId, .exportImageLayers])

/-- First phase of `exportSingleLayer(layerId)` (the `set` before the
`export_single_layer` call): record the new current layer and mark the
export in flight. -/
def exportStart (layerId : String) (s : LayersState) : LayersState :=
  { s with
    selectedLayerId := some layerId
    selectedLayerNumber := extractLayerNumber layerId
    isLoading := true
    error := none
    taskStatus := some ⟨"Exporting layer...", 0, false, none⟩ }

/-- Commit phase of `exportSingleLayer`: the `set` run when the
`export_single_layer` response arrives.  Note that it takes only the
response payload — the source never consults or compares the originating
layer id at this point. -/
def exportCommit (files : List FileItem) (s : LayersState) : LayersState :=
  { s with
    selectedLayerFiles := files
    isLoading := false
    taskStatus := some ⟨"Layer exported successfully", 1, true, none⟩ }

/-- Failure phase of `exportSingleLayer` (the `catch` branch). -/
def exportFail (e : String) (s : LayersState) : LayersState :=
  { s with
    error := some e
    isLoading := false
    taskStatus := some ⟨"Error exporting layer", 0, true, some e⟩ }

/-- First phase of `getLayerFiles(layerId)`: set the loading flag and force
`selectedLayerId` to the passed id before the backend call. -/
def getLayerFilesStart (layerId : String) (s : LayersState) : LayersState :=
  { s with
    isLoadingLayerFiles := true
    selectedLayerId := some layerId }

/-- Success phase of `getLayerFiles`. -/
def getLayerFilesOk (files : List FileItem) (s : LayersState) : LayersState :=
  { s with
    selectedLayerFiles := files
    isLoadingLayerFiles := false }

/-- Failure phase of `getLayerFiles`. -/
def getLayerFilesErr (e : String) (s : LayersState) : LayersState :=
  { s with
    selectedLayerFiles := []
    isLoadingLayerFiles := false
    error := some e }

/-- Action `getLayerFiles(layerId)` as a whole: the backend is always called with
the generic id `current_layer`, while `selectedLayerId` is set to the
passed id. -/
def getLayerFiles (layerId : String) (result : Except String (List FileItem))
    (s : LayersState) : LayersState × List BackendCall :=
  let s1 := getLayerFilesStart layerId s
  match result with
  | .ok files => (getLayerFilesOk files s1, [.getLayerFiles "current_layer"])
  | .error e => (getLayerFilesErr e s1, [.getLayerFiles "current_layer"])

/-- Action `exportSingleLayer(layerId)` as a whole.  `exportResult` answers the
`export_single_layer` call; on success the action then runs
`getLayerFiles("current_layer")`, answered by `getResult`. -/
def exportSingleLayer (layerId : String)
    (exportResult : Except String (List FileItem))
    (getResult : Except String (List FileItem))
    (s : LayersState) : LayersState × List BackendCall :=
  if layerId = "" then (s, [])
  else
    let s1 := exportStart layerId s
    match exportResult with
    | .ok files =>
        let s2 := exportCommit files s1
        let r := getLayerFiles "current_layer" getResult s2
        (r.1, .exportSingleLayer layerId :: r.2)
    | .error e => (exportFail e s1, [.exportSingleLayer layerId])

/-- Insertion into the JS `Set` of pending directory paths: append when
absent, keep unchanged when present. -/
def insertIfAbsent (x : String) (l : List String) : List String :=
  if x ∈ l then l else l ++ [x]

/-- The phase of `extractDirectory(dirPath)` that runs right before the
backend call: mark the path as pending. -/
def extractDirStart (dirPath : String) (s : LayersState) : LayersState :=
  { s with loadingDirectories := insertIfAbsent dirPath s.loadingDirectories }

/-- The merge step of `extractDirectory`: keep the previous entries whose
path does not start (as a raw string prefix) with `dirPath` or is exactly
`dirPath`, then append the freshly returned entries. -/
def mergeExtractedFiles (dirPath : String) (old new : List FileItem) :
    List FileItem :=
  old.filter (fun f => !(strStartsWith f.path dirPath) || f.path == dirPath)
    ++ new

/-- Action `extractDirectory(dirPath)` as a whole.  A missing current layer aborts
before any state change or backend call; otherwise the path is marked
pending, the backend is called with the current layer id, and on either
outcome the path is removed from the pending set. -/
def extractDirectory (dirPath : String)
    (result : Except String (List FileItem))
    (s : LayersState) : LayersState × List BackendCall :=
  match s.selectedLayerId with
  | none => (s, [])
  | some lid =>
      let s1 := extractDirStart dirPath s
      match result with
      | .ok files =>
          ({ s1 with
              selectedLayerFiles :=
                mergeExtractedFiles dirPath s.selectedLayerFiles files
              loadingDirectories :=
                s1.loadingDirectories.filter (fun d => d != dirPath) },
           [.extractDir dirPath lid])
      | .error e =>
          ({ s1 with
              error := some e
              loadingDirectories :=
                s1.loadingDirectories.filter (fun d => d != dirPath) },
           [.extractDir dirPath lid])

/-- Action `loadFileContent(file)`: no-op on directories; otherwise set the loading
flag, read the file, and store either the content or an
`Error reading file: …` placeholder. -/
def loadFileContent (file : FileItem) (result : Except String String)
    (s : LayersState) : LayersState × List BackendCall :=
  if file.is_dir then (s, [])
  else
    let s1 := { s with isLoadingFileContent := true }
    match result with
    | .ok content =>
        ({ s1 with
            selectedFileContent := content
            isLoadingFileContent := false },
         [.readLayerFile file.path])
    | .error e =>
        ({ s1 with
            selectedFileContent := "Error reading file: " ++ e
            isLoadingFileContent := false
            error := some e },
         [.readLayerFile file.path])

/-- Action `addLayerForComparison(layerId)`: no-op when already selected, append
below 2 selections, otherwise keep the second slot and append (evicting
index 0). -/
def addLayerForComparison (layerId : String) (s : LayersState) : LayersState :=
  if layerId ∈ s.selectedLayersForComparison then s
  else if s.selectedLayersForComparison.length < 2 then
    { s with selectedLayersForComparison :=
        s.selectedLayersForComparison ++ [layerId] }
  else
    { s with selectedLayersForComparison :=
        [s.selectedLayersForComparison.getD 1 "", layerId] }

/-- Action `removeLayerForComparison(layerId)`. -/
def removeLayerForComparison (layerId : String) (s : LayersState) :
    LayersState :=
  { s with selectedLayersForComparison :=
      s.selectedLayersForComparison.filter (fun i => i != layerId) }

/-- The comparison-mode branch of `Sidebar.handleSelectLayer`: toggle the
layer in the 2-slot comparison selection. -/
def handleSelectLayerComparison (layerId : String) (s : LayersState) :
    LayersState :=
  if layerId ∈ s.selectedLayersForComparison then
    removeLayerForComparison layerId s
  else
    addLayerForComparison layerId s

/-- Action `compareLayers()`: reject (storing only a validation error, calling
nothing and returning null) unless exactly 2 layers are selected; otherwise
call the backend once and either store the result or store the error,
leaving any previous result untouched.  The third component is the return value of the action. -/
def compareLayers (result : Except String ComparisonResult)
    (s : LayersState) :
    LayersState × List BackendCall × Option ComparisonResult :=
  if s.selectedLayersForComparison.length ≠ 2 then
    ({ s with error := some "Please select exactly 2 layers to compare" },
     [], none)
  else
    let l1 := s.selectedLayersForComparison.getD 0 ""
    let l2 := s.selectedLayersForComparison.getD 1 ""
    let s1 := { s with isComparing := true, error := none }
    match result with
    | .ok r =>
        ({ s1 with comparisonResult := some r, isComparing := false },
         [.compareLayers l1 l2], some r)
    | .error e =>
        ({ s1 with error := some e, isComparing := false },
         [.compareLayers l1 l2], none)

/-- The tree-node record built by `LayerFiles` (`ComparisonView.tsx`):
identifier, name, path, node type ("file" or "directory"), optional display
size, children, optional expansion flag, and the originating entry. -/
inductive TreeNode where
  | mk (id : String) (name : String) (path : String) (ty : String)
      (size : Option String) (children : List TreeNode)
      (isExpanded : Option Bool) (file : FileItem)

/-- Name of a tree node. -/
def TreeNode.name : TreeNode → String
  | .mk _ n _ _ _ _ _ _ => n

/-- Path of a tree node. -/
def TreeNode.path : TreeNode → String
  | .mk _ _ p _ _ _ _ _ => p

/-- Children of a tree node. -/
def TreeNode.children : TreeNode → List TreeNode
  | .mk _ _ _ _ _ c _ _ => c

/-- Expansion flag of a tree node. -/
def TreeNode.isExpanded : TreeNode → Option Bool
  | .mk _ _ _ _ _ _ e _ => e

/-- The node spread `{...node, children: matchingChildren, isExpanded: true}`
used by the search filter. -/
def TreeNode.withMatching (cs : List TreeNode) : TreeNode → TreeNode
  | .mk i n p ty sz _ _ f => .mk i n p ty sz cs (some true) f

/-- The recursive `searchNodes` helper of the `LayerFiles` search effect:
keep a node whose (lowercased) name or path contains the query; otherwise,
when it has children, keep it with its filtered children and force it
expanded provided some child survives.  `query` is already lowercased by
the caller. -/
def searchNodes (query : String) : List TreeNode → List TreeNode
  | [] => []
  | TreeNode.mk i nm p ty sz cs ex f :: rest =>
      let nameMatch := strIncludes (strToLower nm) query
      let pathMatch := strIncludes (strToLower p) query
      if nameMatch || pathMatch then
        TreeNode.mk i nm p ty sz cs ex f :: searchNodes query rest
      else if cs.length > 0 then
        let matchingChildren := searchNodes query cs
        if matchingChildren.length > 0 then
          TreeNode.mk i nm p ty sz matchingChildren (some true) f
            :: searchNodes query rest
        else
          searchNodes query rest
      else
        searchNodes query rest

/-- The search `useEffect` of `LayerFiles` as a function from the query and
the built tree to the filtered tree: a whitespace-only query restores the
unfiltered tree, otherwise the lowercased query is pushed through
`searchNodes`. -/
def filterFileTree (searchQuery : String) (fileTree : List TreeNode) :
    List TreeNode :=
  if strTrim searchQuery = "" then fileTree
  else searchNodes (strToLower searchQuery) fileTree

/-- Specification-side predicate: the query occurs in the (lowercased)
name or path of no node anywhere in the forest.  `query` is already lowercased. -/
def noMatchForest (query : String) : List TreeNode → Bool
  | [] => true
  | TreeNode.mk _ nm p _ _ cs _ _ :: rest =>
      !(strIncludes (strToLower nm) query)
        && !(strIncludes (strToLower p) query)
        && noMatchForest query cs
        && noMatchForest query rest


/-- Sample file entry used in concrete scenarios. -/
def tFile : FileItem := ⟨"f", "/f", false, 1, none, none⟩

/-- Sample tree leaf whose name contains "match". -/
def childNode : TreeNode := .mk "id3" "match-me" "/dir/match-me" "file" none [] none tFile

/-- Sample tree directory whose only child is `childNode`. -/
def dirNode : TreeNode := .mk "id2" "dirname" "/dir" "directory" none [childNode] none tFile

/-- A state in which a layer is currently selected. -/
def layerReadyState : LayersState :=
  { initialState with selectedLayerId := some "layer_1" }

/-- A file entry whose content read will fail. -/
def oversizedFile : FileItem := ⟨"big.bin", "/data/big.bin", false, 99999, none, none⟩

/-- A state with two layers picked for comparison. -/
def twoSelectedState : LayersState :=
  { initialState with selectedLayersForComparison := ["layer_0", "layer_1"] }

/-- An image whose layer list is `[layer_0, layer_1, layer_2]`. -/
def imgThreeLayers : DockerImageInfo :=
  ⟨"img-1", "example:latest", "now", "10MB",
   [⟨"layer_0", "layer 0", "FROM base", "1MB", "now", []⟩,
    ⟨"layer_1", "layer 1", "RUN a", "2MB", "now", []⟩,
    ⟨"layer_2", "layer 2", "RUN b", "3MB", "now", []⟩]⟩

/-- A state holding live comparison-mode data. -/
def comparisonBusyState : LayersState :=
  { initialState with
      isComparisonMode := true
      selectedLayersForComparison := ["layer_0", "layer_1"]
      comparisonResult := some ⟨["/a"], [], [], []⟩ }

/-- A sibling entry of `/app/node_modules` that shares it as a raw string
prefix without being a path descendant. -/
def siblingEntry : FileItem := ⟨"node_modules2", "/app/node_modules2", true, 0, none, some true⟩

/-- A state whose entry collection holds only `siblingEntry`. -/
def preMergeState : LayersState :=
  { initialState with
      selectedLayerId := some "layer_1"
      selectedLayerFiles := [siblingEntry] }

/-- Fresh entries returned when extracting `/app/node_modules`. -/
def freshNm1 : FileItem := ⟨"a.js", "/app/node_modules/a.js", false, 1, none, none⟩

/-- Second fresh entry under `/app/node_modules`. -/
def freshNm2 : FileItem := ⟨"b.js", "/app/node_modules/b.js", false, 1, none, none⟩

/-- Third fresh entry under `/app/node_modules`. -/
def freshNm3 : FileItem := ⟨"lib", "/app/node_modules/lib", true, 0, none, some true⟩

/-- The file delivered by a stale `layer_1` export response. -/
def staleFile : FileItem := ⟨"stale.txt", "/l1/stale.txt", false, 3, none, none⟩

/-- Claim C10: when no layer is selected, `extractDirectory` is a complete
no-op — it issues no backend call and returns the session state unchanged
(pending set, entry collection and error field included). -/
theorem extractDirectory_noop_without_layer (dirPath : String)
    (res : Except String (List FileItem)) (s : LayersState)
    (h : s.selectedLayerId = none) :
    extractDirectory dirPath res s = (s, []) := by
  simp [extractDirectory, h]

/-- Witness for `extractDirectory_noop_without_layer` at the initial state. -/
theorem extractDirectory_noop_without_layer_witness :
    initialState.selectedLayerId = none
    ∧ extractDirectory "/app" (Except.ok [siblingEntry]) initialState
        = (initialState, []) :=
  ⟨rfl, extractDirectory_noop_without_layer "/app" (Except.ok [siblingEntry])
    initialState rfl⟩

/-- Claim C8: with a layer selected, `extractDirectory(p)` puts `p` in the
pending set before the backend call is issued, the backend is called exactly
once with `p` and the current layer, and `p` is no longer pending after the
call completes, whether it succeeded or failed. -/
theorem extractDirectory_pending_set (dirPath lid : String) (s : LayersState)
    (h : s.selectedLayerId = some lid) :
    dirPath ∈ (extractDirStart dirPath s).loadingDirectories
    ∧ (∀ res : Except String (List FileItem),
        dirPath ∉ (extractDirectory dirPath res s).1.loadingDirectories)
    ∧ (∀ res : Except String (List FileItem),
        (extractDirectory dirPath res s).2
          = [BackendCall.extractDir dirPath lid]) := by
  refine ⟨?_, ?_, ?_⟩
  · by_cases hm : dirPath ∈ s.loadingDirectories
    · simp [extractDirStart, insertIfAbsent, hm]
    · simp [extractDirStart, insertIfAbsent, hm]
  · intro res
    cases res with
    | ok files => simp [extractDirectory, h, List.mem_filter]
    | error e => simp [extractDirectory, h, List.mem_filter]
  · intro res
    cases res with
    | ok files => simp [extractDirectory, h]
    | error e => simp [extractDirectory, h]

/-- Witness for `extractDirectory_pending_set`: a failed extraction of
`/app` leaves `/app` out of the pending set, so it can be retried. -/
theorem extractDirectory_pending_set_witness :
    "/app" ∈ (extractDirStart "/app" layerReadyState).loadingDirectories
    ∧ "/app" ∉ (extractDirectory "/app" (Except.error "boom")
        layerReadyState).1.loadingDirectories
    ∧ (extractDirectory "/app" (Except.error "boom") layerReadyState).2
        = [BackendCall.extractDir "/app" "layer_1"] := by
  have h := extractDirectory_pending_set "/app" "layer_1" layerReadyState rfl
  exact ⟨h.1, h.2.1 (Except.error "boom"), h.2.2 (Except.error "boom")⟩

/-- Claim C7 counterexample: when the backend read fails with
"File is too large to display", the stored content is the string prefixed
with "Error reading file: ", not that exact error string as claimed. -/
theorem loadFileContent_error_prefix_counterexample :
    (loadFileContent oversizedFile
        (Except.error "File is too large to display")
        initialState).1.selectedFileContent
      = "Error reading file: File is too large to display"
    ∧ (loadFileContent oversizedFile
        (Except.error "File is too large to display")
        initialState).1.selectedFileContent
      ≠ "File is too large to display" := by
  exact ⟨rfl, by decide⟩

/-- Claim C7 (amended): when `loadFileContent` on a non-directory entry
fails with error string `e`, `selectedFileContent` becomes the string
"Error reading file: " followed by `e` (not `e` itself),
`isLoadingFileContent` becomes false, and the error field records `e`. -/
theorem loadFileContent_failure_spec (file : FileItem) (e : String)
    (s : LayersState) (h : file.is_dir = false) :
    (loadFileContent file (Except.error e) s).1.selectedFileContent
      = "Error reading file: " ++ e
    ∧ (loadFileContent file (Except.error e) s).1.isLoadingFileContent = false
    ∧ (loadFileContent file (Except.error e) s).1.error = some e := by
  simp [loadFileContent, h]

/-- Witness for `loadFileContent_failure_spec` on the oversized file. -/
theorem loadFileContent_failure_spec_witness :
    (loadFileContent oversizedFile
        (Except.error "File is too large to display")
        initialState).1.selectedFileContent
      = "Error reading file: " ++ "File is too large to display"
    ∧ (loadFileContent oversizedFile
        (Except.error "File is too large to display")
        initialState).1.isLoadingFileContent = false
    ∧ (loadFileContent oversizedFile
        (Except.error "File is too large to display")
        initialState).1.error = some "File is too large to display" :=
  loadFileContent_failure_spec oversizedFile "File is too large to display"
    initialState rfl

/-- Claim C6: `compareLayers` with a selection of length other than 2 is
rejected synchronously — only the error field changes (in particular the
task status is untouched), no backend call is issued and null is returned;
with exactly 2 selections the backend is called exactly once; and on a
backend failure the previous comparison result is left untouched while only
the error and the comparing flag change. -/
theorem compareLayers_spec (s : LayersState)
    (res : Except String ComparisonResult) :
    (s.selectedLayersForComparison.length ≠ 2 →
      compareLayers res s =
        ({ s with error := some "Please select exactly 2 layers to compare" },
         [], none))
    ∧ (s.selectedLayersForComparison.length = 2 →
      (compareLayers res s).2.1 =
        [BackendCall.compareLayers (s.selectedLayersForComparison.getD 0 "")
          (s.selectedLayersForComparison.getD 1 "")])
    ∧ (∀ e, s.selectedLayersForComparison.length = 2 →
        res = Except.error e →
        (compareLayers res s).1.comparisonResult = s.comparisonResult
        ∧ (compareLayers res s).1.error = some e
        ∧ (compareLayers res s).1.isComparing = false) := by
  refine ⟨fun h => by simp [compareLayers, h], fun h => ?_, fun e h hres => ?_⟩
  · cases res <;> simp [compareLayers, h]
  · subst hres
    simp [compareLayers, h]

/-- Witness for `compareLayers_spec`: an empty selection is rejected with
only the validation error stored, and a failed backend compare leaves the
previous result in place. -/
theorem compareLayers_spec_witness :
    compareLayers (Except.ok ⟨[], [], [], []⟩) initialState =
      ({ initialState with
          error := some "Please select exactly 2 layers to compare" },
       [], none)
    ∧ (compareLayers (Except.error "backend down")
        twoSelectedState).1.comparisonResult
      = twoSelectedState.comparisonResult
    ∧ (compareLayers (Except.error "backend down") twoSelectedState).2.1
      = [BackendCall.compareLayers "layer_0" "layer_1"] := by
  have h1 := (compareLayers_spec initialState (Except.ok ⟨[], [], [], []⟩)).1
  have h2 := compareLayers_spec twoSelectedState (Except.error "backend down")
  exact ⟨h1 (by decide), (h2.2.2 "backend down" (by decide) rfl).1,
    h2.2.1 (by decide)⟩

/-- One toggle keeps the comparison selection within the 2-slot bound. -/
theorem handleSelect_length_le (l : String) (s : LayersState)
    (h : s.selectedLayersForComparison.length ≤ 2) :
    (handleSelectLayerComparison l s).selectedLayersForComparison.length
      ≤ 2 := by
  unfold handleSelectLayerComparison removeLayerForComparison
    addLayerForComparison
  by_cases hm : l ∈ s.selectedLayersForComparison
  · simp only [hm, if_true]
    exact le_trans (List.length_filter_le _ _) h
  · simp only [hm, if_false]
    by_cases hl : s.selectedLayersForComparison.length < 2
    · simp only [hl, if_true]
      simp only [List.length_append, List.length_cons, List.length_nil]
      omega
    · simp [hl]

/-- Any toggle sequence started within the 2-slot bound stays within it. -/
theorem foldl_handleSelect_length_le (seq : List String) :
    ∀ s : LayersState, s.selectedLayersForComparison.length ≤ 2 →
      ((seq.foldl (fun st l => handleSelectLayerComparison l st)
          s).selectedLayersForComparison).length ≤ 2 := by
  induction seq with
  | nil => intro s h; simpa using h
  | cons a rest ih =>
      intro s h
      exact ih (handleSelectLayerComparison a s) (handleSelect_length_le a s h)

/-- Claim C3: under the comparison-mode toggle (remove when selected, append
below 2, otherwise evict index 0 and append), the comparison selection never
exceeds length 2 over any sequence of selections, and toggling a third
distinct identifier when two are selected yields exactly
[second, new]. -/
theorem comparison_selection_spec :
    (∀ (seq : List String) (s : LayersState),
        s.selectedLayersForComparison.length ≤ 2 →
        ((seq.foldl (fun st l => handleSelectLayerComparison l st)
            s).selectedLayersForComparison).length ≤ 2)
    ∧ (∀ (a b c : String) (s : LayersState),
        s.selectedLayersForComparison = [a, b] → c ≠ a → c ≠ b →
        (handleSelectLayerComparison c s).selectedLayersForComparison
          = [b, c]) := by
  constructor
  · exact fun seq s h => foldl_handleSelect_length_le seq s h
  · intro a b c s hs hca hcb
    simp [handleSelectLayerComparison, addLayerForComparison, hs, hca, hcb]

/-- Witness for `comparison_selection_spec`: three toggles from the empty
selection stay within two slots, and toggling `layer_2` with
[layer_0, layer_1] selected yields [layer_1, layer_2]. -/
theorem comparison_selection_spec_witness :
    ((["layer_0", "layer_1", "layer_2"].foldl
        (fun st l => handleSelectLayerComparison l st)
        initialState).selectedLayersForComparison).length ≤ 2
    ∧ (handleSelectLayerComparison "layer_2"
        twoSelectedState).selectedLayersForComparison
      = ["layer_1", "layer_2"] := by
  have h := comparison_selection_spec
  exact ⟨h.1 ["layer_0", "layer_1", "layer_2"] initialState (by decide),
    h.2 "layer_0" "layer_1" "layer_2" twoSelectedState rfl (by decide)
      (by decide)⟩

/-- Claim C1 counterexample: after switching to `layer_2` while the export
of `layer_1` is still pending, the arrival of the `layer_1` response is NOT
discarded — the commit overwrites `selectedLayerFiles` for the now-current
`layer_2` with the stale data. -/
theorem stale_export_overwrite_counterexample :
    (exportStart "layer_2" (exportStart "layer_1"
        initialState)).selectedLayerId = some "layer_2"
    ∧ (exportStart "layer_2" (exportStart "layer_1"
        initialState)).selectedLayerFiles = []
    ∧ (exportCommit [staleFile] (exportStart "layer_2" (exportStart "layer_1"
        initialState))).selectedLayerId = some "layer_2"
    ∧ (exportCommit [staleFile] (exportStart "layer_2" (exportStart "layer_1"
        initialState))).selectedLayerFiles = [staleFile] :=
  ⟨rfl, rfl, rfl, rfl⟩

/-- Claim C1 (amended): the export-response commit is unconditional — it
stores the file list of the response whatever the current layer is,
without comparing the originating layer identifier (the commit phase does
not even receive one), so an in-flight export whose layer no longer matches
the current layer still overwrites the canonical state (last response
wins). -/
theorem export_commit_unconditional (files : List FileItem)
    (s : LayersState) :
    (exportCommit files s).selectedLayerFiles = files
    ∧ (exportCommit files s).selectedLayerId = s.selectedLayerId
    ∧ (exportCommit files s).isLoading = false :=
  ⟨rfl, rfl, rfl⟩

/-- Claim C4 counterexample: a successful image selection leaves the
comparison selection and the comparison result exactly as they were —
they are not reset as claimed. -/
theorem selectImage_comparison_not_cleared_counterexample :
    (selectImageAndProcessLayers "img-1" (Except.ok "tagged")
        (Except.ok imgThreeLayers)
        comparisonBusyState).1.selectedLayersForComparison
      = ["layer_0", "layer_1"]
    ∧ (selectImageAndProcessLayers "img-1" (Except.ok "tagged")
        (Except.ok imgThreeLayers) comparisonBusyState).1.comparisonResult
      = some ⟨["/a"], [], [], []⟩ :=
  ⟨rfl, rfl⟩

/-- Claim C4 (amended): for a non-empty image identifier the clearing update
that `selectImageAndProcessLayers` performs before its first backend call
resets the layer selection, the entry collection, the selected file and the
loaded file content — but the comparison state (selection and result) is
not touched by the clearing update nor by the whole operation, whatever the
backend responses are. -/
theorem selectImage_clear_spec (imageId : String)
    (tagResult : Except String String)
    (exportResult : Except String DockerImageInfo) (s : LayersState)
    (h : imageId ≠ "") :
    (selectImageClear imageId s).selectedLayerId = none
    ∧ (selectImageClear imageId s).selectedLayerNumber = none
    ∧ (selectImageClear imageId s).selectedLayerFiles = []
    ∧ (selectImageClear imageId s).selectedFile = none
    ∧ (selectImageClear imageId s).selectedFileContent = ""
    ∧ (selectImageClear imageId s).selectedLayersForComparison
        = s.selectedLayersForComparison
    ∧ (selectImageClear imageId s).comparisonResult = s.comparisonResult
    ∧ (selectImageAndProcessLayers imageId tagResult exportResult
        s).1.selectedLayersForComparison = s.selectedLayersForComparison
    ∧ (selectImageAndProcessLayers imageId tagResult exportResult
        s).1.comparisonResult = s.comparisonResult := by
  refine ⟨rfl, rfl, rfl, rfl, rfl, rfl, rfl, ?_, ?_⟩ <;>
    cases tagResult with
    | error e => simp [selectImageAndProcessLayers, h, selectImageClear]
    | ok t =>
        cases exportResult <;>
          simp [selectImageAndProcessLayers, h, selectImageClear]

/-- Witness for `selectImage_clear_spec` on a state holding live comparison
data. -/
theorem selectImage_clear_spec_witness :
    (selectImageClear "img-1" comparisonBusyState).selectedLayerId = none
    ∧ (selectImageClear "img-1" comparisonBusyState).selectedLayerNumber
        = none
    ∧ (selectImageClear "img-1" comparisonBusyState).selectedLayerFiles = []
    ∧ (selectImageClear "img-1" comparisonBusyState).selectedFile = none
    ∧ (selectImageClear "img-1" comparisonBusyState).selectedFileContent = ""
    ∧ (selectImageClear "img-1"
        comparisonBusyState).selectedLayersForComparison
      = comparisonBusyState.selectedLayersForComparison
    ∧ (selectImageClear "img-1" comparisonBusyState).comparisonResult
      = comparisonBusyState.comparisonResult
    ∧ (selectImageAndProcessLayers "img-1" (Except.ok "tagged")
        (Except.ok imgThreeLayers)
        comparisonBusyState).1.selectedLayersForComparison
      = comparisonBusyState.selectedLayersForComparison
    ∧ (selectImageAndProcessLayers "img-1" (Except.ok "tagged")
        (Except.ok imgThreeLayers) comparisonBusyState).1.comparisonResult
      = comparisonBusyState.comparisonResult :=
  selectImage_clear_spec "img-1" (Except.ok "tagged")
    (Except.ok imgThreeLayers) comparisonBusyState (by decide)

/-- Claim C5 counterexample: selecting `img-1` whose export returns an image
with layers [layer_0, layer_1, layer_2] stores the image, but the current
layer stays unselected (none, not layer_0) and the issued backend calls are
only the retag and the image export — no per-layer export is issued. -/
theorem selectImage_no_autoselect_counterexample :
    (selectImageAndProcessLayers "img-1" (Except.ok "tagged")
        (Except.ok imgThreeLayers) initialState).1.dockerImage
      = some imgThreeLayers
    ∧ imgThreeLayers.layers.length = 3
    ∧ (selectImageAndProcessLayers "img-1" (Except.ok "tagged")
        (Except.ok imgThreeLayers) initialState).1.selectedLayerId = none
    ∧ (selectImageAndProcessLayers "img-1" (Except.ok "tagged")
        (Except.ok imgThreeLayers) initialState).2
      = [BackendCall.retagImage "img-1", BackendCall.exportImageLayers] :=
  ⟨rfl, rfl, rfl, rfl⟩

/-- Claim C5 (amended): when both the retag and the export step succeed,
`selectImageAndProcessLayers` stores the returned image and marks the task
complete, but it does not auto-select the first layer of that image (the current
layer remains cleared) and issues no per-layer export — the only backend
calls are the retag and the image-level export. -/
theorem selectImage_success_spec (imageId tagMsg : String)
    (info : DockerImageInfo) (s : LayersState) (h : imageId ≠ "") :
    (selectImageAndProcessLayers imageId (Except.ok tagMsg) (Except.ok info)
        s).1.dockerImage = some info
    ∧ (selectImageAndProcessLayers imageId (Except.ok tagMsg)
        (Except.ok info) s).1.selectedLayerId = none
    ∧ (selectImageAndProcessLayers imageId (Except.ok tagMsg)
        (Except.ok info) s).1.isLoading = false
    ∧ (selectImageAndProcessLayers imageId (Except.ok tagMsg)
        (Except.ok info) s).1.taskStatus
      = some ⟨"Layer processing completed successfully", 1, true, none⟩
    ∧ (selectImageAndProcessLayers imageId (Except.ok tagMsg)
        (Except.ok info) s).2
      = [BackendCall.retagImage imageId, BackendCall.exportImageLayers] := by
  simp [selectImageAndProcessLayers, h, selectImageClear]

/-- Witness for `selectImage_success_spec` on the three-layer image. -/
theorem selectImage_success_spec_witness :
    (selectImageAndProcessLayers "img-1" (Except.ok "tagged")
        (Except.ok imgThreeLayers) initialState).1.dockerImage
      = some imgThreeLayers
    ∧ (selectImageAndProcessLayers "img-1" (Except.ok "tagged")
        (Except.ok imgThreeLayers) initialState).1.selectedLayerId = none
    ∧ (selectImageAndProcessLayers "img-1" (Except.ok "tagged")
        (Except.ok imgThreeLayers) initialState).1.isLoading = false
    ∧ (selectImageAndProcessLayers "img-1" (Except.ok "tagged")
        (Except.ok imgThreeLayers) initialState).1.taskStatus
      = some ⟨"Layer processing completed successfully", 1, true, none⟩
    ∧ (selectImageAndProcessLayers "img-1" (Except.ok "tagged")
        (Except.ok imgThreeLayers) initialState).2
      = [BackendCall.retagImage "img-1", BackendCall.exportImageLayers] :=
  selectImage_success_spec "img-1" "tagged" imgThreeLayers initialState
    (by decide)

/-- Claim C2 counterexample: `/app/node_modules2` is not a strict path
descendant of `/app/node_modules` (it does not extend it with a path
separator), yet the merge for `extractDirectory("/app/node_modules")` drops
it, because the source filters by raw string prefix. -/
theorem extractDirectory_sibling_removed_counterexample :
    strStartsWith siblingEntry.path ("/app/node_modules" ++ "/") = false
    ∧ siblingEntry.path ≠ "/app/node_modules"
    ∧ siblingEntry ∈ preMergeState.selectedLayerFiles
    ∧ siblingEntry ∉
        (extractDirectory "/app/node_modules"
          (Except.ok [freshNm1, freshNm2, freshNm3])
          preMergeState).1.selectedLayerFiles := by
  decide

/-- Claim C2 (amended): with a layer selected, the merge step of
`extractDirectory(p)` removes exactly those previous entries whose path has
`p` as a raw string prefix and differs from `p` — this includes the true
path descendants of `p` but also any sibling whose path merely extends `p` as a
string — and then appends exactly the returned entries.  Provided the
previous collection had pairwise-distinct paths and the backend returns
pairwise-distinct entries whose paths properly extend `p` as a string, the
merged collection has no two entries with the same path. -/
theorem extractDirectory_merge_spec (dirPath lid : String)
    (files : List FileItem) (s : LayersState)
    (hsel : s.selectedLayerId = some lid)
    (hold : (s.selectedLayerFiles.map FileItem.path).Nodup)
    (hnew : ∀ f ∈ files,
      strStartsWith f.path dirPath = true ∧ f.path ≠ dirPath)
    (hnewnd : (files.map FileItem.path).Nodup) :
    (extractDirectory dirPath (Except.ok files) s).1.selectedLayerFiles
      = s.selectedLayerFiles.filter
          (fun f => !(strStartsWith f.path dirPath) || f.path == dirPath)
        ++ files
    ∧ (((extractDirectory dirPath
          (Except.ok files) s).1.selectedLayerFiles).map FileItem.path).Nodup := by
  have heq : (extractDirectory dirPath (Except.ok files) s).1.selectedLayerFiles
      = mergeExtractedFiles dirPath s.selectedLayerFiles files := by
    simp [extractDirectory, hsel]
  refine ⟨by rw [heq]; rfl, ?_⟩
  rw [heq]
  unfold mergeExtractedFiles
  rw [List.map_append, List.nodup_append]
  refine ⟨List.Nodup.sublist (List.Sublist.map _ (List.filter_sublist _)) hold,
    hnewnd, ?_⟩
  intro a ha hb
  simp only [List.mem_map] at ha hb
  obtain ⟨f, hf, hfa⟩ := ha
  obtain ⟨g, hg, hga⟩ := hb
  rw [List.mem_filter] at hf
  have hkeep := hf.2
  simp only [Bool.or_eq_true, Bool.not_eq_true', beq_iff_eq] at hkeep
  have hgp := hnew g hg
  rw [hga, ← hfa] at hgp
  rcases hkeep with hk | hk
  · rw [hk] at hgp
    exact Bool.false_ne_true hgp.1
  · exact hgp.2 hk

/-- Witness for `extractDirectory_merge_spec`: extracting
`/app/node_modules` with 3 returned entries replaces the prior entries
sharing that string prefix and adds exactly those 3, duplicate-free. -/
theorem extractDirectory_merge_spec_witness :
    (extractDirectory "/app/node_modules"
        (Except.ok [freshNm1, freshNm2, freshNm3])
        preMergeState).1.selectedLayerFiles
      = [freshNm1, freshNm2, freshNm3]
    ∧ (((extractDirectory "/app/node_modules"
          (Except.ok [freshNm1, freshNm2, freshNm3])
          preMergeState).1.selectedLayerFiles).map FileItem.path).Nodup := by
  have h := extractDirectory_merge_spec "/app/node_modules" "layer_1"
    [freshNm1, freshNm2, freshNm3] preMergeState rfl (by decide)
    (by decide) (by decide)
  refine ⟨?_, h.2⟩
  rw [h.1]
  decide

/-- Evaluation of `searchNodes` on the empty forest. -/
theorem searchNodes_nil (query : String) : searchNodes query [] = [] := by
  simp [searchNodes]

/-- A forest in which the query occurs nowhere filters to the empty forest
(strong induction on the forest size, since the tree type nests through
lists). -/
theorem searchNodes_eq_nil_of_noMatch (query : String) :
    ∀ (n : Nat) (ts : List TreeNode), sizeOf ts ≤ n →
      noMatchForest query ts = true → searchNodes query ts = [] := by
  intro n
  induction n with
  | zero =>
      intro ts hsz _
      cases ts with
      | nil => simp [searchNodes]
      | cons a rest =>
          rw [List.cons.sizeOf_spec] at hsz
          omega
  | succ n ih =>
      intro ts hsz hnm
      cases ts with
      | nil => simp [searchNodes]
      | cons a rest =>
          cases a with
          | mk i nm p ty sz cs ex f =>
              simp only [noMatchForest, Bool.and_eq_true,
                Bool.not_eq_true'] at hnm
              obtain ⟨⟨⟨hn, hp⟩, hcs⟩, hrest⟩ := hnm
              have hszcs : sizeOf cs ≤ n := by
                rw [List.cons.sizeOf_spec, TreeNode.mk.sizeOf_spec] at hsz
                omega
              have hszrest : sizeOf rest ≤ n := by
                rw [List.cons.sizeOf_spec] at hsz
                omega
              simp only [searchNodes]
              simp [hn, hp, ih cs hszcs hcs, ih rest hszrest hrest]

/-- Claim C9: a whitespace-only search query leaves the built tree exactly
as it is; a query occurring in the (case-folded) name or path of no node filters
the tree to the empty forest; and a non-matching directory with at least one
surviving descendant is kept, carrying exactly its filtered children and
forced into the expanded state. -/
theorem search_filter_spec :
    (∀ (q : String) (t : List TreeNode), strTrim q = "" →
      filterFileTree q t = t)
    ∧ (∀ (q : String) (t : List TreeNode), strTrim q ≠ "" →
        noMatchForest (strToLower q) t = true → filterFileTree q t = [])
    ∧ (∀ (query i nm p ty : String) (sz : Option String)
        (cs : List TreeNode) (ex : Option Bool) (f : FileItem)
        (rest : List TreeNode),
        strIncludes (strToLower nm) query = false →
        strIncludes (strToLower p) query = false →
        (searchNodes query cs).length > 0 →
        searchNodes query (TreeNode.mk i nm p ty sz cs ex f :: rest)
          = TreeNode.mk i nm p ty sz (searchNodes query cs) (some true) f
            :: searchNodes query rest) := by
  refine ⟨fun q t h => by simp [filterFileTree, h], fun q t h hm => ?_, ?_⟩
  · rw [filterFileTree, if_neg h]
    exact searchNodes_eq_nil_of_noMatch (strToLower q) (sizeOf t) t le_rfl hm
  · intro query i nm p ty sz cs ex f rest hn hp hne
    have hcs : cs.length > 0 := by
      cases cs with
      | nil => simp [searchNodes] at hne
      | cons a l => simp
    simp only [searchNodes]
    simp [hn, hp, hcs, hne]

/-- Witness for `search_filter_spec`: a space-only query keeps the sample
tree, "zzz" matches nothing in it and filters it away, and "match" keeps the
non-matching directory expanded with its matching child. -/
theorem search_filter_spec_witness :
    filterFileTree " " [dirNode] = [dirNode]
    ∧ filterFileTree "zzz" [dirNode] = []
    ∧ searchNodes "match" [dirNode]
      = TreeNode.mk "id2" "dirname" "/dir" "directory" none
          (searchNodes "match" [childNode]) (some true) tFile
        :: searchNodes "match" ([] : List TreeNode) := by
  have h := search_filter_spec
  refine ⟨h.1 " " [dirNode] (by decide), ?_, ?_⟩
  · refine h.2.1 "zzz" [dirNode] (by decide) ?_
    simp [noMatchForest, dirNode, childNode, strIncludes, strToLower,
      charsContain, charsLeadWith]
  · have h3 := h.2.2 "match" "id2" "dirname" "/dir" "directory" none
      [childNode] none tFile []
      (by decide) (by decide)
      (by simp [searchNodes, childNode, strIncludes, strToLower,
        charsContain, charsLeadWith])
    exact h3
